import Mathlib

/-!
Verification of the raylib-sys build script (raylib-sys/build.rs).

The build script is a one-shot orchestrator: it classifies the cargo target
triple into a (Platform, PlatformOS) pair, drives the native cmake build,
locates and normalizes the produced static library, selects a precomputed
bindings blob, and emits linker directives.  We embed the decision logic of
that script shallowly: environment access becomes an explicit environment map,
filesystem existence becomes a predicate on path strings, directory contents
become records of booleans, process aborts (panic / expect) become the error
branch of Except, and the stdout linker directives become a list of strings.
-/

namespace RaylibSys

/-- Substring containment on strings, matching Rust str::contains with a
string pattern: the pattern occurs contiguously somewhere in the string. -/
def scontains (s pat : String) : Bool := decide (pat.toList <:+: s.toList)

/-- Suffix test on strings, matching Rust str::ends_with. -/
def sEndsWith (s pat : String) : Bool := decide (pat.toList <:+ s.toList)

/-- An environment view: a total map from variable names to optional values,
mirroring std::env::var (modulo the unicode error case, unused here). -/
def EnvMap := String → Option String

/-- Mirrors std::env::set_var: the updated environment map. -/
def setVar (e : EnvMap) (name v : String) : EnvMap :=
  fun n => if n = name then some v else e n

/-- The Platform enum from build.rs. -/
inductive Platform where
  | Web
  | Desktop
  | Android
  | RPI
deriving DecidableEq, Repr

/-- The PlatformOS enum from build.rs. -/
inductive PlatformOS where
  | Windows
  | Linux
  | BSD
  | OSX
  | Unknown
deriving DecidableEq, Repr

/-- First half of platform_from_target (build.rs lines 314-325): the Platform
chosen from the target triple, together with the environment after the
EMMAKEN_CFLAGS side effect taken on the wasm32 branch. -/
def platformOfTarget (target : String) (e : EnvMap) : Platform × EnvMap :=
  if scontains target "wasm32" then
    (Platform.Web, setVar e "EMMAKEN_CFLAGS" "-s USE_GLFW=3")
  else if scontains target "armv7-unknown-linux" then
    (Platform.RPI, e)
  else if sEndsWith target "linux-android" then
    (Platform.Android, e)
  else
    (Platform.Desktop, e)

/-- The uname-based kernel-name mapping inside platform_from_target
(build.rs lines 340-349); the catch-all arm panics. -/
def unameToOS (un : String) : Except String PlatformOS :=
  if un = "Linux" then Except.ok PlatformOS.Linux
  else if un = "FreeBSD" then Except.ok PlatformOS.BSD
  else if un = "OpenBSD" then Except.ok PlatformOS.BSD
  else if un = "NetBSD" then Except.ok PlatformOS.BSD
  else if un = "DragonFly" then Except.ok PlatformOS.BSD
  else if un = "Darwin" then Except.ok PlatformOS.OSX
  else Except.error ("Unknown platform " ++ un)

/-- Second half of platform_from_target (build.rs lines 327-355): the
PlatformOS chosen from the Platform, the environment (variables OS and
TARGET) and, on the non-Windows Desktop path only, the trimmed stdout of
the uname utility, passed here as the argument un. -/
def osOfPlatform (p : Platform) (e : EnvMap) (un : String) :
    Except String PlatformOS :=
  if p = Platform.Desktop then
    if scontains ((e "OS").getD "") "Windows_NT"
        || scontains ((e "TARGET").getD "") "windows" then
      Except.ok PlatformOS.Windows
    else
      unameToOS un
  else if p = Platform.RPI ∨ p = Platform.Android then
    Except.ok PlatformOS.Linux
  else
    Except.ok PlatformOS.Unknown

/-- The whole of platform_from_target (build.rs lines 313-358): the
classified pair together with the resulting environment; the error branch
is the panic on an unrecognized kernel name. -/
def platformFromTarget (target : String) (e : EnvMap) (un : String) :
    Except String ((Platform × PlatformOS) × EnvMap) :=
  match osOfPlatform (platformOfTarget target e).1 (platformOfTarget target e).2 un with
  | Except.ok os => Except.ok (((platformOfTarget target e).1, os), (platformOfTarget target e).2)
  | Except.error m => Except.error m

/-- The Android ABI selection in build_with_cmake (build.rs lines 111-115):
match on the target triple with a panic catch-all. -/
def androidAbi (target : String) : Except String String :=
  if target = "aarch64-linux-android" then Except.ok "arm64-v8a"
  else if target = "armv7-linux-androideabi" then Except.ok "armeabi-v7a"
  else Except.error "Unsupported target triple for Android"

/-- The NDK root lookup in the Android branch of build_with_cmake
(build.rs lines 106-107): reads ANDROID_NDK_ROOT, and the expect message on
the missing-variable panic says ANDROID_NDK_HOME. -/
def androidNdkRoot (e : EnvMap) : Except String String :=
  match e "ANDROID_NDK_ROOT" with
  | some v => Except.ok v
  | none => Except.error "Please set the ANDROID_NDK_HOME environment variable"

/-- Path join, PathBuf style: parent slash child. -/
def pjoin (p c : String) : String := p ++ "/" ++ c

/-- join_cmake_lib_directory (build.rs lines 33-42): probe the candidate
lib directories in order under the build root and return the first that
exists in the filesystem view ex; fall back to the root itself. -/
def joinCmakeLibDirectory (ex : String → Bool) (path : String) : String :=
  match ["lib", "lib64", "lib32"].find? (fun d => ex (pjoin path d)) with
  | some d => pjoin path d
  | none => path

/-- Existence of the library files the normalization step of build_with_cmake
looks at, in the resolved library directory. -/
structure LibDirState where
  raylib_lib : Bool
  raylib_static_lib : Bool
  libraylib_static_a : Bool
  libraylib_a : Bool
  libraylib_bc : Bool
deriving DecidableEq, Repr

/-- The Windows branch of library normalization (build.rs lines 127-146):
a priority chain of existence checks; a copy marks the destination as
existing and leaves every other file as it was; the final arm panics. -/
def windowsNormalize (d : LibDirState) : Except String LibDirState :=
  if d.raylib_lib then Except.ok d
  else if d.raylib_static_lib then Except.ok { d with raylib_lib := true }
  else if d.libraylib_static_a then Except.ok { d with libraylib_a := true }
  else if d.libraylib_a then Except.ok d
  else Except.error "failed to create windows library"

/-- The Web branch of library normalization (build.rs lines 148-151):
copy libraylib.bc to libraylib.a, panicking when the copy fails, which in
this filesystem model happens exactly when the source is absent. -/
def webNormalize (d : LibDirState) : Except String LibDirState :=
  if d.libraylib_bc then Except.ok { d with libraylib_a := true }
  else Except.error "failed to create wasm library"

/-- The whole normalization tail of build_with_cmake (build.rs lines
127-151): the Windows chain when the OS is Windows, then the Web copy when
the platform is Web. -/
def normalizeArtifacts (p : Platform) (os : PlatformOS) (d : LibDirState) :
    Except String LibDirState :=
  match (if os = PlatformOS.Windows then windowsNormalize d else Except.ok d) with
  | Except.error m => Except.error m
  | Except.ok d1 =>
      if p = Platform.Web then webNormalize d1 else Except.ok d1

/-- The link function (build.rs lines 220-265) as the ordered list of
cargo directives it prints; the wayland compile-time feature becomes the
boolean argument. -/
def link (p : Platform) (os : PlatformOS) (wayland : Bool) : List String :=
  (match os with
   | PlatformOS.Windows =>
       ["cargo:rustc-link-lib=dylib=winmm",
        "cargo:rustc-link-lib=dylib=gdi32",
        "cargo:rustc-link-lib=dylib=user32",
        "cargo:rustc-link-lib=dylib=shell32"]
   | PlatformOS.Linux =>
       if wayland then
         ["cargo:rustc-link-search=/usr/local/lib",
          "cargo:rustc-link-lib=wayland-client",
          "cargo:rustc-link-lib=glfw"]
       else
         ["cargo:rustc-link-search=/usr/local/lib",
          "cargo:rustc-link-lib=X11"]
   | PlatformOS.OSX =>
       ["cargo:rustc-link-search=native=/usr/local/lib",
        "cargo:rustc-link-lib=framework=OpenGL",
        "cargo:rustc-link-lib=framework=Cocoa",
        "cargo:rustc-link-lib=framework=IOKit",
        "cargo:rustc-link-lib=framework=CoreFoundation",
        "cargo:rustc-link-lib=framework=CoreVideo"]
   | _ => [])
  ++ (if p = Platform.Web then
        ["cargo:rustc-link-lib=glfw"]
      else if p = Platform.RPI then
        ["cargo:rustc-link-search=/opt/vc/lib",
         "cargo:rustc-link-lib=bcm_host",
         "cargo:rustc-link-lib=brcmEGL",
         "cargo:rustc-link-lib=brcmGLESv2",
         "cargo:rustc-link-lib=vcos"]
      else [])
  ++ ["cargo:rustc-link-lib=static=raylib"]

/-- The four precomputed bindings blobs of gen_bindings, identified by key. -/
inductive Binding where
  | windows
  | linux
  | osx
  | web
deriving DecidableEq, Repr

/-- The selection match of gen_bindings (build.rs lines 164-189): arms are
tried in source order, so an OS key wins over the Web platform key, and the
catch-all panics. -/
def genBindings (p : Platform) (os : PlatformOS) : Except String Binding :=
  match p, os with
  | _, PlatformOS.Windows => Except.ok Binding.windows
  | _, PlatformOS.Linux => Except.ok Binding.linux
  | _, PlatformOS.OSX => Except.ok Binding.osx
  | Platform.Web, _ => Except.ok Binding.web
  | _, _ => Except.error "raylib-rs not supported on your platform"

/-- A concrete environment for witnesses: only TARGET is set, to a Windows
desktop triple. -/
def winEnv : EnvMap :=
  fun n => if n = "TARGET" then some "x86_64-pc-windows-msvc" else none

/-- A concrete environment for witnesses: only ANDROID_NDK_HOME is set, the
variable the panic message names, while ANDROID_NDK_ROOT stays unset. -/
def homeOnlyEnv : EnvMap :=
  fun n => if n = "ANDROID_NDK_HOME" then some "/opt/ndk" else none

/-- The empty environment for witnesses. -/
def emptyEnv : EnvMap := fun _ => none

/-- A filesystem view for witnesses in which only root/lib64 exists. -/
def lib64Only : String → Bool := fun s => s == "root/lib64"

/-- Claim C1: platform classification follows the priority order wasm32
substring (Web, setting EMMAKEN_CFLAGS for the downstream build), then
armv7-unknown-linux substring (RaspberryPi), then linux-android suffix
(Android), else Desktop. -/
theorem platform_classification_priority (target : String) (e : EnvMap) :
    (scontains target "wasm32" = true →
      (platformOfTarget target e).1 = Platform.Web ∧
      (platformOfTarget target e).2 "EMMAKEN_CFLAGS" = some "-s USE_GLFW=3") ∧
    (scontains target "wasm32" = false →
     scontains target "armv7-unknown-linux" = true →
      platformOfTarget target e = (Platform.RPI, e)) ∧
    (scontains target "wasm32" = false →
     scontains target "armv7-unknown-linux" = false →
     sEndsWith target "linux-android" = true →
      platformOfTarget target e = (Platform.Android, e)) ∧
    (scontains target "wasm32" = false →
     scontains target "armv7-unknown-linux" = false →
     sEndsWith target "linux-android" = false →
      platformOfTarget target e = (Platform.Desktop, e)) := by
  refine ⟨fun h => ?_, fun h1 h2 => ?_, fun h1 h2 h3 => ?_, fun h1 h2 h3 => ?_⟩ <;>
    simp [platformOfTarget, setVar, *]

/-- Claim C1 witness: a concrete wasm32 target classifies as Web and the
EMMAKEN_CFLAGS variable is set in the resulting environment. -/
theorem platform_classification_priority_witness :
    (platformOfTarget "wasm32-unknown-emscripten" emptyEnv).1 = Platform.Web ∧
    (platformOfTarget "wasm32-unknown-emscripten" emptyEnv).2 "EMMAKEN_CFLAGS" =
      some "-s USE_GLFW=3" :=
  (platform_classification_priority "wasm32-unknown-emscripten" emptyEnv).1 (by decide)

/-- Claim C2: RaspberryPi and Android platforms resolve to Linux
unconditionally, Web resolves to Unknown, and for every platform other than
Desktop the PlatformOS computation ignores both the environment and the
uname answer. -/
theorem classifier_os_invariant (target : String) (e : EnvMap) (un : String) :
    (((platformOfTarget target e).1 = Platform.RPI ∨
      (platformOfTarget target e).1 = Platform.Android) →
      platformFromTarget target e un =
        Except.ok (((platformOfTarget target e).1, PlatformOS.Linux),
          (platformOfTarget target e).2)) ∧
    ((platformOfTarget target e).1 = Platform.Web →
      platformFromTarget target e un =
        Except.ok ((Platform.Web, PlatformOS.Unknown),
          (platformOfTarget target e).2)) ∧
    (∀ p : Platform, p ≠ Platform.Desktop → ∀ e1 e2 : EnvMap, ∀ un1 un2 : String,
      osOfPlatform p e1 un1 = osOfPlatform p e2 un2) := by
  refine ⟨fun h => ?_, fun h => ?_, fun p hp e1 e2 un1 un2 => ?_⟩
  · rcases h with h | h <;> simp [platformFromTarget, osOfPlatform, h]
  · simp [platformFromTarget, osOfPlatform, h]
  · cases p
    · rfl
    · exact absurd rfl hp
    · rfl
    · rfl

/-- Claim C2 witness: a concrete Android target classifies as the pair
Android and Linux, whatever uname would have said. -/
theorem classifier_os_invariant_witness :
    platformFromTarget "aarch64-linux-android" emptyEnv "Darwin" =
      Except.ok ((Platform.Android, PlatformOS.Linux), emptyEnv) := by
  have h := (classifier_os_invariant "aarch64-linux-android" emptyEnv "Darwin").1
    (Or.inr (by decide))
  exact h

/-- Claim C3: for a Desktop-classified target, with the TARGET variable
holding the target string as cargo guarantees, a Windows_NT marker in the OS
variable or a windows substring in the target yields Windows for every
possible uname answer (so uname is never consulted), and otherwise the uname
answer is mapped Linux to Linux, the four BSD kernel names to BSD, Darwin to
OSX, and any other kernel name to a fatal error. -/
theorem desktop_os_resolution (target : String) (e : EnvMap) (un : String)
    (hd : (platformOfTarget target e).1 = Platform.Desktop)
    (ht : e "TARGET" = some target) :
    ((scontains ((e "OS").getD "") "Windows_NT" = true ∨
      scontains target "windows" = true) →
      ∀ un2 : String, platformFromTarget target e un2 =
        Except.ok ((Platform.Desktop, PlatformOS.Windows), e)) ∧
    (scontains ((e "OS").getD "") "Windows_NT" = false →
     scontains target "windows" = false →
      ((un = "Linux" → platformFromTarget target e un =
          Except.ok ((Platform.Desktop, PlatformOS.Linux), e)) ∧
       ((un = "FreeBSD" ∨ un = "OpenBSD" ∨ un = "NetBSD" ∨ un = "DragonFly") →
          platformFromTarget target e un =
            Except.ok ((Platform.Desktop, PlatformOS.BSD), e)) ∧
       (un = "Darwin" → platformFromTarget target e un =
          Except.ok ((Platform.Desktop, PlatformOS.OSX), e)) ∧
       (un ≠ "Linux" → un ≠ "FreeBSD" → un ≠ "OpenBSD" → un ≠ "NetBSD" →
        un ≠ "DragonFly" → un ≠ "Darwin" →
          platformFromTarget target e un =
            Except.error ("Unknown platform " ++ un)))) := by
  have hpe : platformOfTarget target e = (Platform.Desktop, e) := by
    unfold platformOfTarget at hd ⊢
    split_ifs at hd ⊢
    all_goals simp_all
  constructor
  · intro h un2
    have hcond : (scontains ((e "OS").getD "") "Windows_NT"
        || scontains ((e "TARGET").getD "") "windows") = true := by
      rw [ht]
      rcases h with h | h <;> simp [h]
    simp [platformFromTarget, hpe, osOfPlatform, hcond]
  · intro hos htw
    have hcond : (scontains ((e "OS").getD "") "Windows_NT"
        || scontains ((e "TARGET").getD "") "windows") = false := by
      rw [ht]
      simp [hos, htw]
    refine ⟨fun hu => ?_, fun hu => ?_, fun hu => ?_,
      fun h1 h2 h3 h4 h5 h6 => ?_⟩
    · subst hu
      simp [platformFromTarget, hpe, osOfPlatform, hcond, unameToOS]
    · rcases hu with hu | hu | hu | hu <;> subst hu <;>
        simp [platformFromTarget, hpe, osOfPlatform, hcond, unameToOS]
    · subst hu
      simp [platformFromTarget, hpe, osOfPlatform, hcond, unameToOS]
    · simp [platformFromTarget, hpe, osOfPlatform, hcond, unameToOS,
        h1, h2, h3, h4, h5, h6]

/-- Claim C3 witness: a concrete Windows desktop triple, with the TARGET
variable set to it and OS unset, resolves to Windows even when uname would
have answered Linux. -/
theorem desktop_os_resolution_witness :
    platformFromTarget "x86_64-pc-windows-msvc" winEnv "Linux" =
      Except.ok ((Platform.Desktop, PlatformOS.Windows), winEnv) :=
  (desktop_os_resolution "x86_64-pc-windows-msvc" winEnv "Linux"
    (by decide) (by decide)).1 (Or.inr (by decide)) "Linux"

/-- Claim C4 counterexample: mips-linux-android is Android-classified and the
ABI selection fails on it, but the fatal message is the fixed text
Unsupported target triple for Android, which does not contain the offending
triple. -/
theorem android_abi_message_counterexample :
    (platformOfTarget "mips-linux-android" emptyEnv).1 = Platform.Android ∧
    androidAbi "mips-linux-android" =
      Except.error "Unsupported target triple for Android" ∧
    scontains "Unsupported target triple for Android" "mips-linux-android" = false :=
  ⟨rfl, rfl, by decide⟩

/-- Claim C4 amended: the ABI selection maps aarch64-linux-android to
arm64-v8a and armv7-linux-androideabi to armeabi-v7a, and fails fatally on
every other triple with the fixed message Unsupported target triple for
Android, which does not name the offending triple. -/
theorem android_abi_mapping (target : String)
    (h1 : target ≠ "aarch64-linux-android")
    (h2 : target ≠ "armv7-linux-androideabi") :
    androidAbi "aarch64-linux-android" = Except.ok "arm64-v8a" ∧
    androidAbi "armv7-linux-androideabi" = Except.ok "armeabi-v7a" ∧
    androidAbi target = Except.error "Unsupported target triple for Android" := by
  refine ⟨rfl, rfl, ?_⟩
  simp [androidAbi, h1, h2]

/-- Claim C4 amended witness: the two supported triples map to their ABIs and
the unsupported triple mips64-linux-android fails fatally. -/
theorem android_abi_mapping_witness :
    androidAbi "aarch64-linux-android" = Except.ok "arm64-v8a" ∧
    androidAbi "armv7-linux-androideabi" = Except.ok "armeabi-v7a" ∧
    androidAbi "mips64-linux-android" =
      Except.error "Unsupported target triple for Android" :=
  android_abi_mapping "mips64-linux-android" (by decide) (by decide)

/-- Claim C5: the artifact locator probes the lib, lib64 and lib32
subdirectories of the build root in exactly that order, returns the first
that exists, and returns the build root unchanged when none exists. -/
theorem join_cmake_lib_directory_probe (ex : String → Bool) (path : String) :
    (ex (pjoin path "lib") = true →
      joinCmakeLibDirectory ex path = pjoin path "lib") ∧
    (ex (pjoin path "lib") = false → ex (pjoin path "lib64") = true →
      joinCmakeLibDirectory ex path = pjoin path "lib64") ∧
    (ex (pjoin path "lib") = false → ex (pjoin path "lib64") = false →
     ex (pjoin path "lib32") = true →
      joinCmakeLibDirectory ex path = pjoin path "lib32") ∧
    (ex (pjoin path "lib") = false → ex (pjoin path "lib64") = false →
     ex (pjoin path "lib32") = false →
      joinCmakeLibDirectory ex path = path) := by
  refine ⟨fun h1 => ?_, fun h1 h2 => ?_, fun h1 h2 h3 => ?_, fun h1 h2 h3 => ?_⟩ <;>
    simp [joinCmakeLibDirectory, List.find?, h1, *]

/-- Claim C5 witness: a build root whose only existing candidate is the
lib64 subdirectory resolves to that subdirectory. -/
theorem join_cmake_lib_directory_probe_witness :
    joinCmakeLibDirectory lib64Only "root" = pjoin "root" "lib64" :=
  (join_cmake_lib_directory_probe lib64Only "root").2.1 (by decide) (by decide)

/-- Claim C6: the Windows normalization chain leaves an existing raylib.lib
alone, else copies raylib_static.lib to raylib.lib keeping the original,
else copies libraylib_static.a to libraylib.a keeping the original, else
leaves an existing libraylib.a alone, and otherwise fails with the message
failed to create windows library. -/
theorem windows_normalize_chain (d : LibDirState) :
    (d.raylib_lib = true → windowsNormalize d = Except.ok d) ∧
    (d.raylib_lib = false → d.raylib_static_lib = true →
      windowsNormalize d = Except.ok { d with raylib_lib := true } ∧
      ({ d with raylib_lib := true } : LibDirState).raylib_static_lib = true) ∧
    (d.raylib_lib = false → d.raylib_static_lib = false →
     d.libraylib_static_a = true →
      windowsNormalize d = Except.ok { d with libraylib_a := true } ∧
      ({ d with libraylib_a := true } : LibDirState).libraylib_static_a = true) ∧
    (d.raylib_lib = false → d.raylib_static_lib = false →
     d.libraylib_static_a = false → d.libraylib_a = true →
      windowsNormalize d = Except.ok d) ∧
    (d.raylib_lib = false → d.raylib_static_lib = false →
     d.libraylib_static_a = false → d.libraylib_a = false →
      windowsNormalize d = Except.error "failed to create windows library") := by
  refine ⟨fun h1 => ?_, fun h1 h2 => ?_, fun h1 h2 h3 => ?_,
    fun h1 h2 h3 h4 => ?_, fun h1 h2 h3 h4 => ?_⟩ <;>
    simp [windowsNormalize, h1, *]

/-- Claim C6 witness: with only raylib_static.lib present the chain creates
raylib.lib as a copy and the original file is still present. -/
theorem windows_normalize_chain_witness :
    windowsNormalize ⟨false, true, false, false, false⟩ =
      Except.ok ⟨true, true, false, false, false⟩ ∧
    (⟨true, true, false, false, false⟩ : LibDirState).raylib_static_lib = true :=
  (windows_normalize_chain ⟨false, true, false, false, false⟩).2.1 rfl rfl

/-- Claim C7: on a Web-platform build, for any OS value other than Windows
(and the classifier gives Web the OS Unknown), normalization copies
libraylib.bc to libraylib.a and fails fatally when libraylib.bc is absent. -/
theorem web_normalize_copy (os : PlatformOS) (d : LibDirState)
    (h : os ≠ PlatformOS.Windows) :
    (d.libraylib_bc = true →
      normalizeArtifacts Platform.Web os d =
        Except.ok { d with libraylib_a := true }) ∧
    (d.libraylib_bc = false →
      normalizeArtifacts Platform.Web os d =
        Except.error "failed to create wasm library") := by
  constructor <;> intro hbc <;>
    simp [normalizeArtifacts, h, webNormalize, hbc]

/-- Claim C7 witness: with libraylib.bc present the Web normalization marks
libraylib.a as existing, and with it absent it fails fatally. -/
theorem web_normalize_copy_witness :
    normalizeArtifacts Platform.Web PlatformOS.Unknown
        ⟨false, false, false, false, true⟩ =
      Except.ok ⟨false, false, false, true, true⟩ ∧
    normalizeArtifacts Platform.Web PlatformOS.Unknown
        ⟨false, false, false, false, false⟩ =
      Except.error "failed to create wasm library" :=
  ⟨(web_normalize_copy PlatformOS.Unknown ⟨false, false, false, false, true⟩
      (by decide)).1 rfl,
   (web_normalize_copy PlatformOS.Unknown ⟨false, false, false, false, false⟩
      (by decide)).2 rfl⟩

/-- Claim C8: the linker directives for Desktop on OSX are exactly the
native search path followed by the OpenGL, Cocoa, IOKit, CoreFoundation and
CoreVideo framework links in that order, contain no X11 or wayland entry,
and end with the static raylib link. -/
theorem link_desktop_osx (wayland : Bool) :
    link Platform.Desktop PlatformOS.OSX wayland =
      ["cargo:rustc-link-search=native=/usr/local/lib",
       "cargo:rustc-link-lib=framework=OpenGL",
       "cargo:rustc-link-lib=framework=Cocoa",
       "cargo:rustc-link-lib=framework=IOKit",
       "cargo:rustc-link-lib=framework=CoreFoundation",
       "cargo:rustc-link-lib=framework=CoreVideo",
       "cargo:rustc-link-lib=static=raylib"] ∧
    (link Platform.Desktop PlatformOS.OSX wayland).all
      (fun s => !scontains s "X11" && !scontains s "wayland") = true ∧
    (link Platform.Desktop PlatformOS.OSX wayland).getLast? =
      some "cargo:rustc-link-lib=static=raylib" := by
  cases wayland <;> exact ⟨rfl, by decide, rfl⟩

/-- Claim C9: bindings selection matches the OS first, sending Windows,
Linux and OSX to their blobs for every platform, then sends the Web platform
to the web blob, and fails fatally on every remaining pair; in particular
Android with Linux takes the linux blob and Web with Unknown the web blob. -/
theorem gen_bindings_selection :
    (∀ p os, genBindings p os =
      if os = PlatformOS.Windows then Except.ok Binding.windows
      else if os = PlatformOS.Linux then Except.ok Binding.linux
      else if os = PlatformOS.OSX then Except.ok Binding.osx
      else if p = Platform.Web then Except.ok Binding.web
      else Except.error "raylib-rs not supported on your platform") ∧
    genBindings Platform.Android PlatformOS.Linux = Except.ok Binding.linux ∧
    genBindings Platform.Web PlatformOS.Unknown = Except.ok Binding.web := by
  refine ⟨fun p os => ?_, rfl, rfl⟩
  cases p <;> cases os <;> rfl

/-- Claim C10: the NDK lookup reads the ANDROID_NDK_ROOT variable, so it
succeeds exactly when that variable is set, yet the fatal message emitted
when it is missing names ANDROID_NDK_HOME and does not mention
ANDROID_NDK_ROOT. -/
theorem ndk_env_message_mismatch (e : EnvMap) :
    (e "ANDROID_NDK_ROOT" = none →
      androidNdkRoot e =
        Except.error "Please set the ANDROID_NDK_HOME environment variable") ∧
    (∀ v, e "ANDROID_NDK_ROOT" = some v → androidNdkRoot e = Except.ok v) ∧
    scontains "Please set the ANDROID_NDK_HOME environment variable"
      "ANDROID_NDK_HOME" = true ∧
    scontains "Please set the ANDROID_NDK_HOME environment variable"
      "ANDROID_NDK_ROOT" = false := by
  refine ⟨fun h => ?_, fun v h => ?_, by decide, by decide⟩ <;>
    simp [androidNdkRoot, h]

/-- Claim C10 witness: in an environment where only ANDROID_NDK_HOME is set,
the lookup still fails, and its message names ANDROID_NDK_HOME. -/
theorem ndk_env_message_mismatch_witness :
    androidNdkRoot homeOnlyEnv =
      Except.error "Please set the ANDROID_NDK_HOME environment variable" :=
  (ndk_env_message_mismatch homeOnlyEnv).1 rfl

end RaylibSys
